import Mathlib

/-!
Verification of the dhi-node-resty-workshop repository.

The repository contains two executable artifacts:
  * `app/src/server.ts` — an Express server with two route handlers,
    `GET /api/health` and `GET /api/time`, plus the helper
    `getCurrencyForLocale`;
  * `scripts/scan-image.sh` — a bash wrapper around the Trivy scanner.

This file gives a shallow embedding of both and proves the spec's claims
about them.  The ICU formatting routines (`Intl.DateTimeFormat`,
`Intl.NumberFormat`) are external library calls; they are modelled as
abstract oracles (fields of `Sys`) returning `Except`: `.error m` models a
thrown exception whose extracted message is `m`.  `Date.prototype.toISOString`
is modelled concretely, following its ECMA-262 format
`YYYY-MM-DDTHH:mm:ss.sssZ`.
-/

namespace DhiWorkshop

/-- Model of a JavaScript `Date` value, broken into the UTC components that
`Date.prototype.toISOString` prints.  The fields of the current wall-clock
time always satisfy `ValidJsDate`. -/
structure JsDate where
  year : Nat
  month : Nat
  day : Nat
  hour : Nat
  minute : Nat
  second : Nat
  ms : Nat
deriving DecidableEq

/-- Ranges the components of a real `Date` satisfy (years of the current era
fit the four-digit ISO form printed by `toISOString`). -/
def ValidJsDate (d : JsDate) : Prop :=
  d.year ≤ 9999 ∧ 1 ≤ d.month ∧ d.month ≤ 12 ∧ 1 ≤ d.day ∧ d.day ≤ 31 ∧
    d.hour ≤ 23 ∧ d.minute ≤ 59 ∧ d.second ≤ 59 ∧ d.ms ≤ 999

instance (d : JsDate) : Decidable (ValidJsDate d) := by
  unfold ValidJsDate
  infer_instance

/-- Two-digit zero-padded decimal rendering used by `toISOString`. -/
def pad2 (n : Nat) : List Char :=
  [Nat.digitChar (n / 10 % 10), Nat.digitChar (n % 10)]

/-- Three-digit zero-padded decimal rendering (milliseconds field). -/
def pad3 (n : Nat) : List Char :=
  [Nat.digitChar (n / 100 % 10), Nat.digitChar (n / 10 % 10), Nat.digitChar (n % 10)]

/-- Four-digit zero-padded decimal rendering (year field). -/
def pad4 (n : Nat) : List Char :=
  Nat.digitChar (n / 1000 % 10) :: pad3 n

/-- Model of `Date.prototype.toISOString` (ECMA-262): the UTC components
joined in the `YYYY-MM-DDTHH:mm:ss.sssZ` shape. -/
def toISOString (d : JsDate) : String :=
  String.mk (pad4 d.year ++ ('-' :: pad2 d.month) ++ ('-' :: pad2 d.day) ++
    ('T' :: pad2 d.hour) ++ (':' :: pad2 d.minute) ++ (':' :: pad2 d.second) ++
    ('.' :: pad3 d.ms) ++ ['Z'])

/-- Syntactic check that a string is a parseable ISO-8601 UTC timestamp of
the exact shape `Date.prototype.toISOString` produces. -/
def isISO8601 (s : String) : Bool :=
  match s.data with
  | [y1, y2, y3, y4, c1, m1, m2, c2, d1, d2, c3, h1, h2, c4, n1, n2, c5,
     s1, s2, c6, f1, f2, f3, c7] =>
    y1.isDigit && y2.isDigit && y3.isDigit && y4.isDigit && c1 == '-' &&
    m1.isDigit && m2.isDigit && c2 == '-' && d1.isDigit && d2.isDigit && c3 == 'T' &&
    h1.isDigit && h2.isDigit && c4 == ':' && n1.isDigit && n2.isDigit && c5 == ':' &&
    s1.isDigit && s2.isDigit && c6 == '.' && f1.isDigit && f2.isDigit && f3.isDigit &&
    c7 == 'Z'
  | _ => false

/-- Model of the query string of a request: each of the two parameters read
by the time handler (`req.query.locale`, `req.query.tz`) is either absent
(`none`, JavaScript `undefined`) or present with a string value. -/
structure Query where
  locale : Option String
  tz : Option String
deriving DecidableEq

/-- Model of the JavaScript falsy-or `x || d` for `x : string | undefined`:
`undefined` and the empty string are falsy, every other string is kept.
Used at `server.ts` lines 17, 18, 43 and 67. -/
def jsOr (v : Option String) (dflt : String) : String :=
  match v with
  | none => dflt
  | some s => if s = "" then dflt else s

/-- The own properties of the `currencyMap` object literal,
`server.ts` lines 55-66. -/
def currencyMap : List (String × String) :=
  [("en-US", "USD"), ("en-GB", "GBP"), ("fr-FR", "EUR"), ("de-DE", "EUR"),
   ("ja-JP", "JPY"), ("zh-CN", "CNY"), ("es-ES", "EUR"), ("it-IT", "EUR"),
   ("pt-BR", "BRL"), ("ko-KR", "KRW")]

/-- Embedding of `getCurrencyForLocale` (`server.ts` lines 54-68) read as a
plain finite-map lookup, `currencyMap[locale] || "USD"`: the annotated
`Record<string, string>` semantics the author declared. -/
def getCurrencyForLocale (locale : String) : String :=
  jsOr (currencyMap.lookup locale) "USD"

/-- A JavaScript value observable from `currencyMap[locale]`: either a
string from the map, or a non-string member named `name` inherited from
`Object.prototype` (a built-in function, or the prototype object itself for
the key `"__proto__"`). -/
inductive JsValue
  | str (s : String)
  | inherited (name : String)
deriving DecidableEq

/-- Keys for which property access on a plain object literal hits
`Object.prototype` instead of returning `undefined` (ECMAScript ordinary
[[Get]] walks the prototype chain). -/
def objectPrototypeKeys : List String :=
  ["constructor", "hasOwnProperty", "isPrototypeOf", "propertyIsEnumerable",
   "toLocaleString", "toString", "valueOf", "__defineGetter__",
   "__defineSetter__", "__lookupGetter__", "__lookupSetter__", "__proto__"]

/-- ECMAScript property access `own[key]` on an object literal with own
string-valued entries `own`: an own property wins, otherwise the lookup
continues on `Object.prototype`. -/
def jsRecordGet (own : List (String × String)) (key : String) : Option JsValue :=
  match own.lookup key with
  | some v => some (.str v)
  | none => if key ∈ objectPrototypeKeys then some (.inherited key) else none

/-- JavaScript truthiness of the values `currencyMap[locale]` can produce:
the empty string is falsy, non-empty strings and inherited
functions/objects are truthy. -/
def jsTruthy : JsValue → Bool
  | .str s => s ≠ ""
  | .inherited _ => true

/-- Embedding of `getCurrencyForLocale` under full ECMAScript property
semantics: `currencyMap[locale] || "USD"` where the indexing walks the
prototype chain.  Exposes the runtime behaviour on keys such as
`"toString"`. -/
def getCurrencyForLocaleJs (locale : String) : JsValue :=
  match jsRecordGet currencyMap locale with
  | some v => if jsTruthy v then v else .str "USD"
  | none => .str "USD"

/-- The success body of `GET /api/time` (`server.ts` lines 37-44): exactly
the six fields serialized by `res.json`. -/
structure TimeOk where
  locale : String
  tz : String
  formatted : String
  numberExample : String
  timestamp : String
  icuDataPath : String
deriving DecidableEq

/-- The error body of `GET /api/time` (`server.ts` lines 46-49): exactly the
two fields `error` and `message`. -/
structure ErrorBody where
  error : String
  message : String
deriving DecidableEq

/-- A response of the time handler: `res.json(...)` (status 200) or
`res.status(400).json(...)`. -/
inductive TimeResponse
  | ok (status : Nat) (body : TimeOk)
  | err (status : Nat) (body : ErrorBody)
deriving DecidableEq

/-- The ambient state a single request observes: the captured `new Date()`,
the `NODE_ICU_DATA` environment variable, and the two ICU routines.
`dtf locale tz now` models `new Intl.DateTimeFormat(locale, {dateStyle,
timeStyle, timeZone: tz}).format(now)`; `nf locale currency` models
`new Intl.NumberFormat(locale, {style: "currency", currency}).format(12345.67)`.
`.error m` models a thrown exception whose extracted message
(`error instanceof Error ? error.message : String(error)`) is `m`. -/
structure Sys where
  now : JsDate
  nodeIcuData : Option String
  dtf : String → String → JsDate → Except String String
  nf : String → String → Except String String

/-- The locale actually used by the handler:
`(req.query.locale as string) || "en-US"` (`server.ts` line 17). -/
def effectiveLocale (q : Query) : String := jsOr q.locale "en-US"

/-- The timezone actually used by the handler:
`(req.query.tz as string) || "UTC"` (`server.ts` line 18). -/
def effectiveTz (q : Query) : String := jsOr q.tz "UTC"

/-- Embedding of the `GET /api/time` handler (`server.ts` lines 16-51):
default the two parameters, format the captured date, format the number with
the mapped currency, and answer 200 with the six-field body; a failure of
either ICU call is caught and answered as 400 with the extracted message. -/
def timeHandler (sys : Sys) (q : Query) : TimeResponse :=
  let locale := effectiveLocale q
  let tz := effectiveTz q
  match sys.dtf locale tz sys.now with
  | .error e => .err 400 ⟨"Invalid locale or timezone", e⟩
  | .ok formatted =>
    match sys.nf locale (getCurrencyForLocale locale) with
    | .error e => .err 400 ⟨"Invalid locale or timezone", e⟩
    | .ok numberFormatted =>
      .ok 200 ⟨locale, tz, formatted, numberFormatted, toISOString sys.now,
        jsOr sys.nodeIcuData "built-in"⟩

/-- The body of `GET /api/health` (`server.ts` line 12): exactly the fields
`status` and `timestamp`. -/
structure HealthBody where
  status : String
  timestamp : String
deriving DecidableEq

/-- A fully evaluated HTTP response of the health handler. -/
structure HealthResponse where
  status : Nat
  body : HealthBody
deriving DecidableEq

/-- Embedding of the `GET /api/health` handler (`server.ts` lines 11-13):
unconditionally `res.json({status: "ok", timestamp: new Date().toISOString()})`. -/
def healthHandler (now : JsDate) : HealthResponse :=
  ⟨200, ⟨"ok", toISOString now⟩⟩

/-- A locale/timezone pair is supported by the installed ICU data when both
formatting calls made by the handler succeed and produce non-empty text, as
every real ICU success does. -/
def SupportedPair (sys : Sys) (locale tz : String) : Prop :=
  (∃ f, sys.dtf locale tz sys.now = .ok f ∧ f ≠ "") ∧
  (∃ n, sys.nf locale (getCurrencyForLocale locale) = .ok n ∧ n ≠ "")

/-- The message of the first ICU failure the try-block of the time handler
runs into, if any: the `DateTimeFormat` call runs first, the `NumberFormat`
call second. -/
def firstIcuFailure (sys : Sys) (locale tz : String) : Option String :=
  match sys.dtf locale tz sys.now with
  | .error m => some m
  | .ok _ =>
    match sys.nf locale (getCurrencyForLocale locale) with
    | .error m => some m
    | .ok _ => none

/-- A concrete demonstration date, used only to instantiate witnesses. -/
def demoDate : JsDate := ⟨2026, 10, 12, 0, 0, 0, 0⟩

/-- A concrete executable stand-in for the DateTimeFormat oracle, used only
to instantiate witnesses: it accepts the timezones `UTC` and `Asia/Tokyo`
and rejects every other identifier with a RangeError-style message. -/
def demoDtf (locale tz : String) (_d : JsDate) : Except String String :=
  if tz = "UTC" ∨ tz = "Asia/Tokyo" then .ok (locale ++ " formatted in " ++ tz)
  else .error ("Invalid time zone specified: " ++ tz)

/-- A concrete executable stand-in for the NumberFormat oracle, used only to
instantiate witnesses: it accepts three-letter currency codes. -/
def demoNf (_locale currency : String) : Except String String :=
  if currency.length = 3 then .ok (currency ++ " 12,345.67")
  else .error "Invalid currency code"

/-- A concrete request environment, used only to instantiate witnesses. -/
def demoSys : Sys := ⟨demoDate, none, demoDtf, demoNf⟩

/-!
Embedding of `scripts/scan-image.sh`.  The script's observable behaviour is
a trace of effects (lines printed, `docker pull`, `trivy image` runs) and a
final exit code.  The outside world — whether `trivy` is on the PATH, and
the exit statuses of the external commands — is a `ScanWorld`.  Decorative
banner lines and ANSI color codes are not modelled; the error, usage and
save messages are.  `set -euo pipefail` (line 21) is modelled by aborting
with a command's exit code as soon as a non-rescued command fails.
-/

/-- One observable effect of a run of `scan-image.sh`. -/
inductive ScanEvent
  | message (text : String)
  | dockerPull (image : String)
  | trivy (format : String) (outputFile : Option String) (image : String)
deriving DecidableEq

/-- The observable outcome of a run: the trace of effects in order, and the
process exit code. -/
structure ScanOutcome where
  events : List ScanEvent
  exitCode : Nat
deriving DecidableEq

/-- The outside world the script runs in: `$0`, whether
`command -v trivy` succeeds (line 32), the exit status of the
`docker pull | grep -E ...` pipeline (line 67) before its `|| true`, and the
exit status of each `trivy image` invocation keyed by format and output
file. -/
structure ScanWorld where
  scriptName : String
  trivyInstalled : Bool
  pullExit : Nat
  trivyExit : String → Option String → String → Nat

/-- First line of the trivy-missing error block (lines 33-40). -/
def trivyMissingMsg : String := "Error: Trivy is not installed"

/-- First line of the zero-argument error block (line 46). -/
def noImageMsg : String := "Error: No image name provided"

/-- The usage line printed on zero arguments (line 48). -/
def usageMsg (scriptName : String) : String :=
  "Usage: " ++ scriptName ++ " <image-name> [output-file]"

/-- Model of `cmd || true` (line 67): the pipeline's exit status is
unconditionally discarded. -/
def orTrue (_exitStatus : Nat) : Nat := 0

/-- Embedding of `scripts/scan-image.sh`: check trivy (lines 32-42), check
the argument count (lines 45-55), bind `IMAGE="$1"` and
`OUTPUT_FILE="${2:-}"` (lines 57-58), pull the image with the status
discarded (line 67), then run trivy twice (json to the file, then table)
when an output file was given (lines 74-94) and once (table) otherwise
(lines 96-102).  Under `set -e` a failing trivy run ends the script with
that status. -/
def scanImage (w : ScanWorld) (args : List String) : ScanOutcome :=
  if w.trivyInstalled = false then
    ⟨[.message trivyMissingMsg], 1⟩
  else if args.length = 0 then
    ⟨[.message noImageMsg, .message (usageMsg w.scriptName)], 1⟩
  else
    let image := args.headD ""
    let outputFile := (args.drop 1).headD ""
    let header := [ScanEvent.message ("Scanning Image: " ++ image)]
    let pullTrace := [ScanEvent.dockerPull image]
    let pullStatus := orTrue w.pullExit
    if pullStatus ≠ 0 then ⟨header ++ pullTrace, pullStatus⟩
    else if outputFile ≠ "" then
      let jsonExit := w.trivyExit "json" (some outputFile) image
      let jsonTrace := [ScanEvent.message ("Saving results to: " ++ outputFile),
        ScanEvent.trivy "json" (some outputFile) image]
      if jsonExit ≠ 0 then ⟨header ++ pullTrace ++ jsonTrace, jsonExit⟩
      else
        let tableExit := w.trivyExit "table" none image
        let tableTrace := [ScanEvent.trivy "table" none image]
        if tableExit ≠ 0 then ⟨header ++ pullTrace ++ jsonTrace ++ tableTrace, tableExit⟩
        else ⟨header ++ pullTrace ++ jsonTrace ++ tableTrace ++
          [.message ("Results saved to: " ++ outputFile), .message "Scan complete!"], 0⟩
    else
      let tableExit := w.trivyExit "table" none image
      let tableTrace := [ScanEvent.trivy "table" none image]
      if tableExit ≠ 0 then ⟨header ++ pullTrace ++ tableTrace, tableExit⟩
      else ⟨header ++ pullTrace ++ tableTrace ++ [.message "Scan complete!"], 0⟩

/-- The scanner invocations in a trace: format and output destination of
each `trivy image` run, in order. -/
def trivyInvocations (events : List ScanEvent) : List (String × Option String) :=
  events.filterMap fun e => match e with
    | .trivy f o _ => some (f, o)
    | _ => none

/-- The files written by scanner invocations in a trace (a successful
`trivy ... -o f` run produces the file `f`). -/
def producedFiles (events : List ScanEvent) : List String :=
  events.filterMap fun e => match e with
    | .trivy _ (some f) _ => some f
    | _ => none

/-- The number of `docker pull` invocations in a trace. -/
def pullCount (events : List ScanEvent) : Nat :=
  (events.filter fun e => match e with
    | .dockerPull _ => true
    | _ => false).length

/-- A concrete world where everything succeeds, used only to instantiate
witnesses. -/
def demoWorld : ScanWorld := ⟨"./scripts/scan-image.sh", true, 0, fun _ _ _ => 0⟩

/-- The success body the demo environment produces for the defaulted
request, used only to instantiate witnesses. -/
def demoDefaultBody : TimeOk :=
  ⟨"en-US", "UTC", "en-US formatted in UTC", "USD 12,345.67",
   "2026-10-12T00:00:00.000Z", "built-in"⟩

/-- The success body the demo environment produces for
`?locale=ja-JP&tz=Asia/Tokyo`, used only to instantiate witnesses. -/
def demoTokyoBody : TimeOk :=
  ⟨"ja-JP", "Asia/Tokyo", "ja-JP formatted in Asia/Tokyo", "JPY 12,345.67",
   "2026-10-12T00:00:00.000Z", "built-in"⟩

theorem digitChar_isDigit (n : Nat) (h : n < 10) : (Nat.digitChar n).isDigit = true := by
  interval_cases n <;> decide

theorem digitChar_mod_isDigit (n : Nat) : (Nat.digitChar (n % 10)).isDigit = true :=
  digitChar_isDigit _ (Nat.mod_lt _ (by norm_num))

theorem isISO8601_toISOString (d : JsDate) : isISO8601 (toISOString d) = true := by
  simp [toISOString, pad4, pad3, pad2, isISO8601, digitChar_mod_isDigit]

/-- C1: for every supported locale/timezone pair — both ICU calls made by
the handler succeed with non-empty output, as they do for every pair the
installed ICU data supports — `GET /api/time` answers HTTP 200 with a body
holding exactly the six fields `locale`, `tz`, `formatted`, `numberExample`,
`timestamp`, `icuDataPath` (the `TimeOk` structure), where `formatted` and
`numberExample` are non-empty. -/
theorem timeHandler_supported_ok (sys : Sys) (q : Query) (f n : String)
    (hf : sys.dtf (effectiveLocale q) (effectiveTz q) sys.now = .ok f) (hf0 : f ≠ "")
    (hn : sys.nf (effectiveLocale q) (getCurrencyForLocale (effectiveLocale q)) = .ok n)
    (hn0 : n ≠ "") :
    timeHandler sys q =
      .ok 200 ⟨effectiveLocale q, effectiveTz q, f, n, toISOString sys.now,
        jsOr sys.nodeIcuData "built-in"⟩ ∧ f ≠ "" ∧ n ≠ "" := by
  refine ⟨?_, hf0, hn0⟩
  simp [timeHandler, hf, hn]

theorem timeHandler_supported_ok_witness :
    timeHandler demoSys ⟨some "ja-JP", some "Asia/Tokyo"⟩ =
      .ok 200 ⟨effectiveLocale ⟨some "ja-JP", some "Asia/Tokyo"⟩,
        effectiveTz ⟨some "ja-JP", some "Asia/Tokyo"⟩,
        "ja-JP formatted in Asia/Tokyo", "JPY 12,345.67",
        toISOString demoSys.now, jsOr demoSys.nodeIcuData "built-in"⟩ ∧
    ("ja-JP formatted in Asia/Tokyo" : String) ≠ "" ∧ ("JPY 12,345.67" : String) ≠ "" :=
  timeHandler_supported_ok demoSys ⟨some "ja-JP", some "Asia/Tokyo"⟩
    "ja-JP formatted in Asia/Tokyo" "JPY 12,345.67" rfl (by decide) rfl (by decide)

/-- C2: whenever one of the ICU formatting calls of `GET /api/time` fails —
`firstIcuFailure` extracts the message of the first such failure — the
handler answers HTTP 400 with the body `{error, message}` carrying that
(non-empty) message, and never a success body. -/
theorem timeHandler_invalid_400 (sys : Sys) (q : Query) (m : String)
    (h : firstIcuFailure sys (effectiveLocale q) (effectiveTz q) = some m) (hm : m ≠ "") :
    timeHandler sys q = .err 400 ⟨"Invalid locale or timezone", m⟩ ∧ m ≠ "" ∧
    ∀ st b, timeHandler sys q ≠ .ok st b := by
  cases hd : sys.dtf (effectiveLocale q) (effectiveTz q) sys.now with
  | error e =>
    have he : e = m := by simpa [firstIcuFailure, hd] using h
    subst he
    exact ⟨by simp [timeHandler, hd], hm, by simp [timeHandler, hd]⟩
  | ok fv =>
    cases hn : sys.nf (effectiveLocale q) (getCurrencyForLocale (effectiveLocale q)) with
    | error e =>
      have he : e = m := by simpa [firstIcuFailure, hd, hn] using h
      subst he
      exact ⟨by simp [timeHandler, hd, hn], hm, by simp [timeHandler, hd, hn]⟩
    | ok nv => simp [firstIcuFailure, hd, hn] at h

theorem timeHandler_invalid_400_witness :
    timeHandler demoSys ⟨some "en-US", some "Not/AZone"⟩ =
      .err 400 ⟨"Invalid locale or timezone", "Invalid time zone specified: Not/AZone"⟩ ∧
    ("Invalid time zone specified: Not/AZone" : String) ≠ "" :=
  ⟨(timeHandler_invalid_400 demoSys ⟨some "en-US", some "Not/AZone"⟩
      "Invalid time zone specified: Not/AZone" rfl (by decide)).1,
   (timeHandler_invalid_400 demoSys ⟨some "en-US", some "Not/AZone"⟩
      "Invalid time zone specified: Not/AZone" rfl (by decide)).2.1⟩

/-- C3: a request omitting both query parameters is handled exactly like a
request supplying `locale=en-US` and `tz=UTC`, and a success body echoes
those defaults in its `locale` and `tz` fields. -/
theorem timeHandler_default_params (sys : Sys) :
    timeHandler sys ⟨none, none⟩ = timeHandler sys ⟨some "en-US", some "UTC"⟩ ∧
    ∀ st b, timeHandler sys ⟨none, none⟩ = .ok st b → b.locale = "en-US" ∧ b.tz = "UTC" := by
  constructor
  · rfl
  · intro st b hb
    simp only [timeHandler, effectiveLocale, effectiveTz, jsOr] at hb
    cases hd : sys.dtf "en-US" "UTC" sys.now with
    | error e => rw [hd] at hb; simp at hb
    | ok fv =>
      rw [hd] at hb
      cases hn : sys.nf "en-US" (getCurrencyForLocale "en-US") with
      | error e => rw [hn] at hb; simp at hb
      | ok nv =>
        rw [hn] at hb
        simp only [TimeResponse.ok.injEq] at hb
        rw [← hb.2]
        exact ⟨rfl, rfl⟩

theorem timeHandler_default_params_witness :
    timeHandler demoSys ⟨none, none⟩ = timeHandler demoSys ⟨some "en-US", some "UTC"⟩ ∧
    demoDefaultBody.locale = "en-US" ∧ demoDefaultBody.tz = "UTC" :=
  ⟨(timeHandler_default_params demoSys).1,
   (timeHandler_default_params demoSys).2 200 demoDefaultBody rfl⟩

/-- C4: the health handler is a total function answering HTTP 200 with body
status `"ok"` and the ISO-8601 rendering of the current time; its result is
always the single success shape, so it has no failure mode. -/
theorem healthHandler_always_ok (d : JsDate) :
    healthHandler d = ⟨200, ⟨"ok", toISOString d⟩⟩ ∧
    (healthHandler d).status = 200 ∧ (healthHandler d).body.status = "ok" ∧
    isISO8601 (healthHandler d).body.timestamp = true :=
  ⟨rfl, rfl, rfl, isISO8601_toISOString d⟩

/-- C5 as stated is refuted at a supplied-but-empty parameter: the request
`?locale=&tz=UTC` supplies `locale` with the value `""`, yet the string
passed to the formatting call and echoed in the response is `"en-US"`, not
`""`. -/
theorem timeHandler_passthrough_cex :
    timeHandler demoSys ⟨some "", some "UTC"⟩ = .ok 200 demoDefaultBody ∧
    demoDefaultBody.locale = "en-US" ∧ ("en-US" : String) ≠ "" := by
  exact ⟨rfl, rfl, by decide⟩

/-- C5 (amended): for every request supplying non-empty `locale` and `tz`
query parameters, the strings handed to the formatting call — by definition
`timeHandler` calls `sys.dtf` on `effectiveLocale`/`effectiveTz` — equal the
query parameter values character for character, and a success body echoes
them unmodified. -/
theorem timeHandler_passthrough (sys : Sys) (l t : String) (hl : l ≠ "") (ht : t ≠ "") :
    effectiveLocale ⟨some l, some t⟩ = l ∧ effectiveTz ⟨some l, some t⟩ = t ∧
    ∀ st b, timeHandler sys ⟨some l, some t⟩ = .ok st b → b.locale = l ∧ b.tz = t := by
  refine ⟨by simp [effectiveLocale, jsOr, hl], by simp [effectiveTz, jsOr, ht], ?_⟩
  intro st b hb
  simp only [timeHandler, effectiveLocale, effectiveTz, jsOr, if_neg hl, if_neg ht] at hb
  cases hd : sys.dtf l t sys.now with
  | error e => rw [hd] at hb; simp at hb
  | ok fv =>
    rw [hd] at hb
    cases hn : sys.nf l (getCurrencyForLocale l) with
    | error e => rw [hn] at hb; simp at hb
    | ok nv =>
      rw [hn] at hb
      simp only [TimeResponse.ok.injEq] at hb
      rw [← hb.2]
      exact ⟨rfl, rfl⟩

theorem timeHandler_passthrough_witness :
    effectiveLocale ⟨some "ja-JP", some "Asia/Tokyo"⟩ = "ja-JP" ∧
    effectiveTz ⟨some "ja-JP", some "Asia/Tokyo"⟩ = "Asia/Tokyo" ∧
    demoTokyoBody.locale = "ja-JP" ∧ demoTokyoBody.tz = "Asia/Tokyo" :=
  ⟨(timeHandler_passthrough demoSys "ja-JP" "Asia/Tokyo" (by decide) (by decide)).1,
   (timeHandler_passthrough demoSys "ja-JP" "Asia/Tokyo" (by decide) (by decide)).2.1,
   (timeHandler_passthrough demoSys "ja-JP" "Asia/Tokyo" (by decide) (by decide)).2.2
     200 demoTokyoBody rfl⟩

/-- C6: with zero positional arguments, or with trivy absent from the PATH,
the scan script exits with status 1 after printing only its error/usage
message block, invoking neither the scanner nor `docker pull`. -/
theorem scanImage_prereq_failure (w : ScanWorld) (args : List String)
    (h : args = [] ∨ w.trivyInstalled = false) :
    (scanImage w args).exitCode = 1 ∧
    ((scanImage w args).events = [.message trivyMissingMsg] ∨
      (scanImage w args).events = [.message noImageMsg, .message (usageMsg w.scriptName)]) ∧
    trivyInvocations (scanImage w args).events = [] ∧
    pullCount (scanImage w args).events = 0 := by
  rcases h with rfl | hf
  · cases hI : w.trivyInstalled
    · exact ⟨by simp [scanImage, hI], Or.inl (by simp [scanImage, hI]),
        by simp [scanImage, hI, trivyInvocations], by simp [scanImage, hI, pullCount]⟩
    · exact ⟨by simp [scanImage, hI], Or.inr (by simp [scanImage, hI]),
        by simp [scanImage, hI, trivyInvocations], by simp [scanImage, hI, pullCount]⟩
  · exact ⟨by simp [scanImage, hf], Or.inl (by simp [scanImage, hf]),
      by simp [scanImage, hf, trivyInvocations], by simp [scanImage, hf, pullCount]⟩

theorem scanImage_prereq_failure_witness :
    (scanImage demoWorld []).exitCode = 1 ∧
    ((scanImage demoWorld []).events = [.message trivyMissingMsg] ∨
      (scanImage demoWorld []).events =
        [.message noImageMsg, .message (usageMsg demoWorld.scriptName)]) ∧
    trivyInvocations (scanImage demoWorld []).events = [] ∧
    pullCount (scanImage demoWorld []).events = 0 :=
  scanImage_prereq_failure demoWorld [] (Or.inl rfl)

/-- C7: given an image and a non-empty output file, and the scanner runs
succeeding, the script pulls the image once and invokes the scanner exactly
twice — json to the output file first (producing that file), then table —
and exits 0; given only an image it invokes the scanner exactly once, in
table format. -/
theorem scanImage_scan_invocations (w : ScanWorld) (img out : String)
    (hi : w.trivyInstalled = true) (ho : out ≠ "")
    (hj : w.trivyExit "json" (some out) img = 0)
    (ht : w.trivyExit "table" none img = 0) :
    (trivyInvocations (scanImage w [img, out]).events = [("json", some out), ("table", none)] ∧
      producedFiles (scanImage w [img, out]).events = [out] ∧
      pullCount (scanImage w [img, out]).events = 1 ∧
      (scanImage w [img, out]).exitCode = 0) ∧
    (trivyInvocations (scanImage w [img]).events = [("table", none)] ∧
      pullCount (scanImage w [img]).events = 1 ∧
      (scanImage w [img]).exitCode = 0) := by
  constructor
  · refine ⟨?_, ?_, ?_, ?_⟩ <;>
      simp [scanImage, hi, ho, hj, ht, orTrue, trivyInvocations, producedFiles, pullCount]
  · refine ⟨?_, ?_, ?_⟩ <;>
      simp [scanImage, hi, ht, orTrue, trivyInvocations, pullCount]

theorem scanImage_scan_invocations_witness :
    (trivyInvocations (scanImage demoWorld ["node:20-bookworm", "trivy-results.json"]).events =
        [("json", some "trivy-results.json"), ("table", none)] ∧
      producedFiles (scanImage demoWorld ["node:20-bookworm", "trivy-results.json"]).events =
        ["trivy-results.json"] ∧
      pullCount (scanImage demoWorld ["node:20-bookworm", "trivy-results.json"]).events = 1 ∧
      (scanImage demoWorld ["node:20-bookworm", "trivy-results.json"]).exitCode = 0) ∧
    (trivyInvocations (scanImage demoWorld ["node:20-bookworm"]).events = [("table", none)] ∧
      pullCount (scanImage demoWorld ["node:20-bookworm"]).events = 1 ∧
      (scanImage demoWorld ["node:20-bookworm"]).exitCode = 0) :=
  scanImage_scan_invocations demoWorld "node:20-bookworm" "trivy-results.json"
    rfl (by decide) rfl rfl

/-- C8: the ten exact keys of `currencyMap` map to their currency codes and
unknown locales (case variants, bare language tags) fall back to `"USD"` —
but under ECMAScript property-access semantics the function is not the total
string map the annotation `Record<string, string>` declares: the key
`"toString"` hits the inherited `Object.prototype.toString`, which is truthy,
so the `|| "USD"` fallback is skipped and a non-string escapes. -/
theorem getCurrency_map_and_prototype :
    getCurrencyForLocale "en-US" = "USD" ∧ getCurrencyForLocale "en-GB" = "GBP" ∧
    getCurrencyForLocale "fr-FR" = "EUR" ∧ getCurrencyForLocale "de-DE" = "EUR" ∧
    getCurrencyForLocale "ja-JP" = "JPY" ∧ getCurrencyForLocale "zh-CN" = "CNY" ∧
    getCurrencyForLocale "es-ES" = "EUR" ∧ getCurrencyForLocale "it-IT" = "EUR" ∧
    getCurrencyForLocale "pt-BR" = "BRL" ∧ getCurrencyForLocale "ko-KR" = "KRW" ∧
    getCurrencyForLocale "en" = "USD" ∧ getCurrencyForLocale "EN-US" = "USD" ∧
    getCurrencyForLocaleJs "en" = .str "USD" ∧
    getCurrencyForLocaleJs "toString" = .inherited "toString" ∧
    getCurrencyForLocaleJs "toString" ≠ .str "USD" := by
  decide

/-- C9: a query parameter supplied as the empty string is treated exactly
like an absent one — the `||` defaulting is a falsiness check, not a
presence check — and a success body then echoes the defaults. -/
theorem timeHandler_empty_params (sys : Sys) (l t : Option String) :
    timeHandler sys ⟨some "", t⟩ = timeHandler sys ⟨none, t⟩ ∧
    timeHandler sys ⟨l, some ""⟩ = timeHandler sys ⟨l, none⟩ ∧
    ∀ st b, timeHandler sys ⟨some "", some ""⟩ = .ok st b →
      b.locale = "en-US" ∧ b.tz = "UTC" := by
  refine ⟨rfl, rfl, ?_⟩
  intro st b hb
  simp [timeHandler, effectiveLocale, effectiveTz, jsOr] at hb
  cases hd : sys.dtf "en-US" "UTC" sys.now with
  | error e => rw [hd] at hb; simp at hb
  | ok fv =>
    rw [hd] at hb
    cases hn : sys.nf "en-US" (getCurrencyForLocale "en-US") with
    | error e => rw [hn] at hb; simp at hb
    | ok nv =>
      rw [hn] at hb
      simp only [TimeResponse.ok.injEq] at hb
      rw [← hb.2]
      exact ⟨rfl, rfl⟩

theorem timeHandler_empty_params_witness :
    timeHandler demoSys ⟨some "", none⟩ = timeHandler demoSys ⟨none, none⟩ ∧
    timeHandler demoSys ⟨none, some ""⟩ = timeHandler demoSys ⟨none, none⟩ ∧
    demoDefaultBody.locale = "en-US" ∧ demoDefaultBody.tz = "UTC" :=
  ⟨(timeHandler_empty_params demoSys none none).1,
   (timeHandler_empty_params demoSys none none).2.1,
   (timeHandler_empty_params demoSys none none).2.2 200 demoDefaultBody rfl⟩

/-- C10: the exit status of the `docker pull | grep` pipeline is discarded
by `|| true`, so the script's behaviour is identical for every pull exit
status, and with trivy installed and an image argument the scanner is still
invoked. -/
theorem scanImage_pull_failure_ignored (w : ScanWorld) (e : Nat) (img : String)
    (rest : List String) (hi : w.trivyInstalled = true) :
    scanImage { w with pullExit := e } (img :: rest) = scanImage w (img :: rest) ∧
    trivyInvocations (scanImage w (img :: rest)).events ≠ [] := by
  constructor
  · rfl
  · by_cases h1 : rest.head?.getD "" = "" <;>
      by_cases h2 : w.trivyExit "table" none img = 0 <;>
      by_cases h3 : w.trivyExit "json" (some (rest.head?.getD "")) img = 0 <;>
      simp [scanImage, hi, orTrue, h1, h2, h3, trivyInvocations]

theorem scanImage_pull_failure_ignored_witness :
    scanImage { demoWorld with pullExit := 7 } ["node:20-bookworm"] =
      scanImage demoWorld ["node:20-bookworm"] ∧
    trivyInvocations (scanImage demoWorld ["node:20-bookworm"]).events ≠ [] :=
  scanImage_pull_failure_ignored demoWorld 7 "node:20-bookworm" [] rfl

end DhiWorkshop
